import Mathlib

/-!
# TradingAutomate — formal verification of the pattern-detection / signal-voting core

Shallow embedding of the Python sources under `src/algos/` (pattern matchers,
Fibonacci calculator, signal voter) and proofs checking the natural-language
specification against them.

Conventions of the embedding:
* A pandas `DataFrame` of OHLCV bars becomes `DataFrame`: a length together with
  the four price columns as functions from bar position to `ℚ`, plus booleans
  recording which of the required columns are present (the matchers that check
  the schema consult them; the others never do, as in the source).
* Bar positions play the role of the pandas index: every detector in the
  source compares and slices index labels exactly as positions
  (`df.index.get_loc` differences, `df.loc[a:b]` inclusive slices,
  `df.iloc[a:b]` half-open slices).
* Python floats become exact rationals (decimal constants such as `0.03`
  are read as the exact decimal they denote).  Arithmetic inside the
  embedded code is written with the kernel-executable operations
  `qadd`/`qsub`/`qmul`/`qdiv`/`qabs`/`qmax`/`qmin` below; each is proved
  equal to the corresponding standard operation on `ℚ`, so they are the
  ordinary rational operations, merely spelled so that `decide` can
  evaluate concrete runs of the detectors.  `x / 0 = 0` in `ℚ` where Python
  would raise `ZeroDivisionError` (every such exception is caught by the
  `invoke*` wrappers, and no theorem below depends on a division by zero).
* Plot generation and message formatting are I/O plumbing: each `invoke*`
  entry point is embedded as a small inductive of its possible return values,
  keeping every numeric datum that the source computes for the returned
  message.
-/

/-! ## Kernel-executable rational arithmetic

The standard `+`, `-`, `*`, `/`, `|·|`, `max`, `min` on `ℚ` do not reduce
inside `decide` (their implementations are opaque to kernel reduction), while
`Rat.divInt`, `mkRat`, `Rat.neg` and the order/equality tests do.  The
operations below are therefore used in the embedded code; the `q*_eq`
theorems later prove each one equal to the standard operation. -/

def qadd (a b : ℚ) : ℚ := Rat.divInt (a.num * b.den + b.num * a.den) (a.den * b.den)

def qsub (a b : ℚ) : ℚ := Rat.divInt (a.num * b.den - b.num * a.den) (a.den * b.den)

def qmul (a b : ℚ) : ℚ := Rat.divInt (a.num * b.num) (a.den * b.den)

def qdiv (a b : ℚ) : ℚ := Rat.divInt (a.num * b.den) (a.den * b.num)

def qabs (a : ℚ) : ℚ := if Rat.blt a 0 then Rat.neg a else a

def qmax (a b : ℚ) : ℚ := if Rat.blt a b then b else a

def qmin (a b : ℚ) : ℚ := if Rat.blt b a then b else a

/-- Cast of an integer to `ℚ` in kernel-executable form. -/
def qofInt (n : ℤ) : ℚ := Rat.divInt n 1

/-! ## The data model -/

/-- An OHLCV table: positions `0, …, len-1`, four price columns, and flags for
which of the required columns are present in the schema. -/
structure DataFrame where
  len : ℕ
  opn : ℕ → ℚ
  high : ℕ → ℚ
  low : ℕ → ℚ
  close : ℕ → ℚ
  hasOpen : Bool := true
  hasHigh : Bool := true
  hasLow : Bool := true
  hasClose : Bool := true

/-- The inclusive position slice `df.loc[a:b]` as a list of positions. -/
def locRange (a b : ℕ) : List ℕ := List.range' a (b + 1 - a)

/-- The half-open position slice `df.loc[a:]` (positions `[a, len)`). -/
def tailRange (a len : ℕ) : List ℕ := List.range' a (len - a)

/-- `pandas.Series.max` on a slice (slices taken below are always nonempty;
the `[]` case is arbitrary). -/
def listMaxQ : List ℚ → ℚ
  | [] => 0
  | x :: xs => xs.foldl qmax x

/-- `pandas.Series.min` on a slice. -/
def listMinQ : List ℚ → ℚ
  | [] => 0
  | x :: xs => xs.foldl qmin x

/-- `df[col].loc[a:b].max()`. -/
def maxOver (f : ℕ → ℚ) (a b : ℕ) : ℚ := listMaxQ ((locRange a b).map f)

/-- `df[col].loc[a:b].min()`. -/
def minOver (f : ℕ → ℚ) (a b : ℕ) : ℚ := listMinQ ((locRange a b).map f)

/-- `df[col].loc[a:b].idxmax()`: first position of the slice attaining the
maximum, as pandas returns it. -/
def idxmaxOver (f : ℕ → ℚ) (a b : ℕ) : ℕ :=
  ((locRange a b).find? (fun k => decide (f k = maxOver f a b))).getD a

/-- `df[col].loc[a:b].idxmin()`: first position of the slice attaining the
minimum, as pandas returns it. -/
def idxminOver (f : ℕ → ℚ) (a b : ℕ) : ℕ :=
  ((locRange a b).find? (fun k => decide (f k = minOver f a b))).getD a

/-- First `some` produced by `f` along a list: the shape of every
first-match-wins scan loop in the source. -/
def firstSome? (f : α → Option β) : List α → Option β
  | [] => none
  | a :: rest =>
    match f a with
    | some b => some b
    | none => firstSome? f rest

/-- The nested `for i … for j in range(i+1, …)` pair scan used by the double
top / double bottom detectors: tries `f p q` for every pair `p` before `q` in
list order, first match wins. -/
def pairScan (f : ℕ → ℕ → Option α) : List ℕ → Option α
  | [] => none
  | p :: rest =>
    match firstSome? (f p) rest with
    | some r => some r
    | none => pairScan f rest

/-! ## Fibonacci calculator — `src/algos/fibonacci_calculator.py`

`FibonacciCalculator.calculate_fibonacci_levels` /
`calculate_fibonacci_extensions` / `calculate_all_fibonacci_levels`.
A Python dict with fixed distinct string keys is embedded as the association
list of its insertions. -/

/-- `calculate_fibonacci_levels(swing_low_index, swing_high_index)`
(fibonacci_calculator.py lines 54–75): retracements from the `Low` at the
swing-low index and the `High` at the swing-high index. -/
def calculate_fibonacci_levels (df : DataFrame) (swing_low_index swing_high_index : ℕ) :
    List (String × ℚ) :=
  let swing_low_price := df.low swing_low_index
  let swing_high_price := df.high swing_high_index
  let price_range := qsub swing_high_price swing_low_price
  [("Fibonacci 0.236 Level", qadd swing_low_price (qmul price_range (mkRat 236 1000))),
   ("Fibonacci 0.382 Level", qadd swing_low_price (qmul price_range (mkRat 382 1000))),
   ("Fibonacci 0.5 Level", qadd swing_low_price (qmul price_range (mkRat 5 10))),
   ("Fibonacci 0.618 Level", qadd swing_low_price (qmul price_range (mkRat 618 1000))),
   ("Fibonacci 0.786 Level", qadd swing_low_price (qmul price_range (mkRat 786 1000)))]

/-- `calculate_fibonacci_extensions(swing_low_index, swing_high_index,
breakout_index)` (fibonacci_calculator.py lines 77–98): extensions from the
`High` at the breakout index. -/
def calculate_fibonacci_extensions (df : DataFrame)
    (swing_low_index swing_high_index breakout_index : ℕ) : List (String × ℚ) :=
  let swing_high_price := df.high swing_high_index
  let swing_low_price := df.low swing_low_index
  let breakout_price := df.high breakout_index
  let price_range := qsub swing_high_price swing_low_price
  [("Fibonacci 1.618 Extension", qadd breakout_price (qmul price_range (mkRat 1618 1000))),
   ("Fibonacci 2.618 Extension", qadd breakout_price (qmul price_range (mkRat 2618 1000))),
   ("Fibonacci 3.618 Extension", qadd breakout_price (qmul price_range (mkRat 3618 1000)))]

/-- `calculate_all_fibonacci_levels` (fibonacci_calculator.py lines 100–115):
the merged dict `{**retracements, **extensions}` (all keys distinct). -/
def calculate_all_fibonacci_levels (df : DataFrame)
    (swing_low_index swing_high_index breakout_index : ℕ) : List (String × ℚ) :=
  calculate_fibonacci_levels df swing_low_index swing_high_index ++
    calculate_fibonacci_extensions df swing_low_index swing_high_index breakout_index

/-! ## Signal voter — `src/algos/AnalyzeData.py`

`analyze_data` computes SMA20/SMA50/RSI(14)/MACD(12,26,9) with the external
`ta` library, then votes on the **latest** bar's values (lines 117–178).  The
indicator computation is library code outside this repository; the voting
logic is embedded as a function of the six latest-bar scalars it reads. -/

/-- The SMA branch of `analyze_data` (lines 129–140), as its contribution
`(to buy_signals, to sell_signals)`.  The `np.isnan` guard is dead on the
post-`dropna` path embedded here. -/
def sma_vote (last_close last_sma20 last_sma50 : ℚ) : ℤ × ℤ :=
  if last_close > last_sma20 ∧ last_sma20 > last_sma50 then (1, 0)
  else if last_close < last_sma20 ∧ last_sma20 < last_sma50 then (0, 1)
  else (0, 0)

/-- The RSI branch of `analyze_data` (lines 142–150). -/
def rsi_vote (last_rsi : ℚ) : ℤ × ℤ :=
  if last_rsi > 70 then (0, 1)
  else if last_rsi < 30 then (1, 0)
  else (0, 0)

/-- The MACD branch of `analyze_data` (lines 152–160).  Note the explicit
`Neutral` case when the MACD line equals the signal line. -/
def macd_vote (last_macd last_macdsignal : ℚ) : ℤ × ℤ :=
  if last_macd > last_macdsignal then (1, 0)
  else if last_macd < last_macdsignal then (0, 1)
  else (0, 0)

/-- The vote aggregation of `analyze_data` (lines 125–178): counter totals,
majority signal, and `confidence = abs(buy_signals - sell_signals) / 3 * 100`. -/
def analyze_data_vote (last_close last_sma20 last_sma50 last_rsi last_macd
    last_macdsignal : ℚ) : String × ℚ :=
  let buy_signals : ℤ := (sma_vote last_close last_sma20 last_sma50).1 +
    (rsi_vote last_rsi).1 + (macd_vote last_macd last_macdsignal).1
  let sell_signals : ℤ := (sma_vote last_close last_sma20 last_sma50).2 +
    (rsi_vote last_rsi).2 + (macd_vote last_macd last_macdsignal).2
  let signal := if buy_signals > sell_signals then "Buy"
    else if sell_signals > buy_signals then "Sell"
    else "Hold"
  let confidence := qmul (qdiv (qofInt ((buy_signals - sell_signals).natAbs)) 3) 100
  (signal, confidence)

/-- Follows the words of claim C1 (not the source): bullish votes, where MACD
votes Bullish iff the MACD line is above the signal line. -/
def specC1_bullish (last_close last_sma20 last_sma50 last_rsi last_macd
    last_macdsignal : ℚ) : ℤ :=
  (if last_close > last_sma20 ∧ last_sma20 > last_sma50 then 1 else 0) +
  (if last_rsi < 30 then 1 else 0) +
  (if last_macd > last_macdsignal then 1 else 0)

/-- Follows the words of claim C1 (not the source): bearish votes, where MACD
votes Bearish whenever it is **not** above the signal line ("else Bearish"). -/
def specC1_bearish (last_close last_sma20 last_sma50 last_rsi last_macd
    last_macdsignal : ℚ) : ℤ :=
  (if last_close < last_sma20 ∧ last_sma20 < last_sma50 then 1 else 0) +
  (if last_rsi > 70 then 1 else 0) +
  (if ¬ last_macd > last_macdsignal then 1 else 0)

/-- The signal claim C1 predicts from its vote counts. -/
def specC1_signal (last_close last_sma20 last_sma50 last_rsi last_macd
    last_macdsignal : ℚ) : String × ℚ :=
  let b := specC1_bullish last_close last_sma20 last_sma50 last_rsi last_macd last_macdsignal
  let s := specC1_bearish last_close last_sma20 last_sma50 last_rsi last_macd last_macdsignal
  (if b > s then "Buy" else if s > b then "Sell" else "Hold",
    qmul (qdiv (qofInt ((b - s).natAbs)) 3) 100)

/-- Follows the words of amended claim C1: as `specC1_bearish`, but MACD votes
Bearish only when the MACD line is strictly below the signal line. -/
def specC1A_bearish (last_close last_sma20 last_sma50 last_rsi last_macd
    last_macdsignal : ℚ) : ℤ :=
  (if last_close < last_sma20 ∧ last_sma20 < last_sma50 then 1 else 0) +
  (if last_rsi > 70 then 1 else 0) +
  (if last_macd < last_macdsignal then 1 else 0)

/-- The signal the amended claim C1 predicts. -/
def specC1A_signal (last_close last_sma20 last_sma50 last_rsi last_macd
    last_macdsignal : ℚ) : String × ℚ :=
  let b := specC1_bullish last_close last_sma20 last_sma50 last_rsi last_macd last_macdsignal
  let s := specC1A_bearish last_close last_sma20 last_sma50 last_rsi last_macd last_macdsignal
  (if b > s then "Buy" else if s > b then "Sell" else "Hold",
    qmul (qdiv (qofInt ((b - s).natAbs)) 3) 100)

/-! ## Double top — `src/algos/DoubleTop.py` -/

/-- The peak marking of `detect_double_top` (DoubleTop.py lines 59–68):
`window = 5`; a bar `i` with `window ≤ i < len - window` is marked `is_peak`
iff its `High` equals the maximum of `High` on `[i-window, i+window]`. -/
def isPeakDT (df : DataFrame) (i : ℕ) : Bool :=
  decide (5 ≤ i) && decide (i + 5 < df.len) &&
    decide (df.high i = maxOver df.high (i - 5) (i + 5))

/-- The positions marked `is_peak`, in order (DoubleTop.py lines 70–72). -/
def dtPeaks (df : DataFrame) : List ℕ := (List.range df.len).filter (isPeakDT df)

/-- One iteration of the pair loop of `detect_double_top` (DoubleTop.py lines
78–117): distance ≥ `min_distance = 10`, highs within
`max_price_diff_pct = 0.03` of the first high, support = minimum `Low` between
the peaks (inclusive slice), at least 3 rows from the second peak on, and the
first close strictly below the support searched from the second peak onward. -/
def dtTryPair (df : DataFrame) (p q : ℕ) : Option (ℕ × ℕ × ℕ) :=
  if q - p < 10 then none
  else if qdiv (qabs (qsub (df.high p) (df.high q))) (df.high p) > mkRat 3 100 then none
  else
    let neckline_price := minOver df.low p q
    if df.len - q < 3 then none
    else
      match (tailRange q df.len).find? (fun k => decide (df.close k < neckline_price)) with
      | some k => some (p, q, k)
      | none => none

/-- `detect_double_top(df)` (DoubleTop.py lines 40–119): needs ≥ 20 rows, then
the first peak pair (in nested-loop order) with a breakdown. -/
def detect_double_top (df : DataFrame) : Option (ℕ × ℕ × ℕ) :=
  if df.len < 20 then none
  else pairScan (dtTryPair df) (dtPeaks df)

/-- The possible returns of `invokeDoubleTop` (DoubleTop.py lines 209–271),
with the numeric content of the detected-case message. -/
inductive DTInvoke where
  | insufficientData
  | noPattern
  | emptyBetween
  | detected (firstTop secondTop breakdown : ℕ) (neckline target : ℚ) (confirmed : Bool)
deriving DecidableEq

/-- `invokeDoubleTop(df)`: the length gate (< 20), detection, neckline,
`target_price = neckline - (first_top_high - neckline)` and the
breakdown-confirmed status (`current_price < neckline_price`). -/
def invokeDoubleTop (df : DataFrame) : DTInvoke :=
  if df.len < 20 then .insufficientData
  else
    match detect_double_top df with
    | none => .noPattern
    | some (p, q, k) =>
      if (locRange p q).isEmpty then .emptyBetween
      else
        let neckline_price := minOver df.low p q
        let first_top_price := df.high p
        let pattern_height := qsub first_top_price neckline_price
        let target_price := qsub neckline_price pattern_height
        let current_price := df.close (df.len - 1)
        .detected p q k neckline_price target_price (decide (current_price < neckline_price))

/-! ## Double bottom — `src/algos/DoubleBottom.py` -/

/-- The required-columns check shared by `detect_double_bottom`,
`detect_head_and_shoulders` and `detect_rising_wedge`:
`['High', 'Low', 'Open', 'Close']`. -/
def hasRequiredColumns (df : DataFrame) : Bool :=
  df.hasHigh && df.hasLow && df.hasOpen && df.hasClose

/-- The potential-low marking of `detect_double_bottom` (DoubleBottom.py lines
137–145): `Low == Low.rolling(window=3, center=True).min()`; the centered
3-window is `[i-1, i+1]` and is NaN (mask false) at the two edges. -/
def isLowDB (df : DataFrame) (i : ℕ) : Bool :=
  decide (1 ≤ i) && decide (i + 1 < df.len) &&
    decide (df.low i = minOver df.low (i - 1) (i + 1))

/-- The positions of potential lows, in order. -/
def dbLows (df : DataFrame) : List ℕ := (List.range df.len).filter (isLowDB df)

/-- One iteration of the pair loop of `detect_double_bottom` (DoubleBottom.py
lines 155–203): distance ≥ `min_distance_between_lows = 5`, lows within
`min_depth = 0.03` of the first low, resistance = maximum `High` between the
lows (inclusive slice), and the first close strictly above the resistance
searched from the second low onward. -/
def dbTryPair (df : DataFrame) (p q : ℕ) : Option (ℕ × ℕ × ℕ) :=
  if q - p < 5 then none
  else if qdiv (qabs (qsub (df.low p) (df.low q))) (df.low p) > mkRat 3 100 then none
  else
    let resistance_price := maxOver df.high p q
    match (tailRange q df.len).find? (fun k => decide (df.close k > resistance_price)) with
    | some k => some (p, q, k)
    | none => none

/-- `detect_double_bottom(df)` (DoubleBottom.py lines 112–205): the
required-columns check returns the `(None, None, None)` result, then needs
≥ `min_distance_between_lows * 2 = 10` rows, then the first low pair (in
nested-loop order) with a breakout. -/
def detect_double_bottom (df : DataFrame) : Option (ℕ × ℕ × ℕ) :=
  if !hasRequiredColumns df then none
  else if df.len < 10 then none
  else pairScan (dbTryPair df) (dbLows df)

/-- The possible returns of `invokeDoubleBottom` (DoubleBottom.py lines
243–275), with the Fibonacci targets of the detected-case message. -/
inductive DBInvoke where
  | insufficientData
  | noPattern
  | detected (firstLow secondLow breakout : ℕ) (fibTargets : List (String × ℚ))
deriving DecidableEq

/-- `invokeDoubleBottom(df)`: the length gate (< 10), detection, and
`calculate_all_fibonacci_levels(first_low, second_low, breakout_point)` —
note the argument roles: the second low is passed as `swing_high_index` and
the breakout as `breakout_index`. -/
def invokeDoubleBottom (df : DataFrame) : DBInvoke :=
  if df.len < 10 then .insufficientData
  else
    match detect_double_bottom df with
    | some (f, s, b) => .detected f s b (calculate_all_fibonacci_levels df f s b)
    | none => .noPattern

/-! ## Head and shoulders — `src/algos/HeadAndShoulder.py` -/

/-- The peak marking of `detect_head_and_shoulders` (HeadAndShoulder.py lines
136–143): `High == High.rolling(window=5, center=True).max()`; the centered
5-window is `[i-2, i+2]`, NaN (mask false) at the two edges on each side. -/
def isPeakHS (df : DataFrame) (i : ℕ) : Bool :=
  decide (2 ≤ i) && decide (i + 2 < df.len) &&
    decide (df.high i = maxOver df.high (i - 2) (i + 2))

/-- The positions of potential peaks, in order. -/
def hsPeaks (df : DataFrame) : List ℕ := (List.range df.len).filter (isPeakHS df)

/-- The triples `(peak_indices[i], peak_indices[i+1], peak_indices[i+2])`
scanned by the loop at HeadAndShoulder.py line 152. -/
def consecTriples : List ℕ → List (ℕ × ℕ × ℕ)
  | a :: b :: c :: rest => (a, b, c) :: consecTriples (b :: c :: rest)
  | _ => []

/-- The neckline value linearly interpolated between the two anchor troughs at
position `idx` (HeadAndShoulder.py lines 199–202):
`left_trough_price + (idx - left_trough) / (right_trough - left_trough) *
(right_trough_price - left_trough_price)`. -/
def hsNecklineAt (df : DataFrame) (lt rt idx : ℕ) : ℚ :=
  qadd (df.low lt)
    (qmul (qdiv (qsub (qofInt idx) (qofInt lt)) (qsub (qofInt rt) (qofInt lt)))
      (qsub (df.low rt) (df.low lt)))

/-- A detected head-and-shoulders: the three peak positions, the returned
neckline tuple `(left_trough_price, right_trough_price)`, and the breakdown
position. -/
structure HSPattern where
  leftShoulder : ℕ
  head : ℕ
  rightShoulder : ℕ
  necklineLeft : ℚ
  necklineRight : ℚ
  breakdown : ℕ
deriving DecidableEq

/-- One iteration of the triple loop of `detect_head_and_shoulders`
(HeadAndShoulder.py lines 152–212): the head strictly above both shoulders,
the shoulders within 10% of the left one, troughs = first `Low`-minima of the
inclusive slices `[ls, head]` and `[head, rs]`, and the breakdown = first bar
from the right shoulder onward whose **Low** is strictly below the
interpolated neckline (bars are skipped while the two troughs coincide). -/
def hsTryTriple (df : DataFrame) (t : ℕ × ℕ × ℕ) : Option HSPattern :=
  let ls := t.1
  let h := t.2.1
  let rs := t.2.2
  if df.high h > df.high ls ∧ df.high h > df.high rs ∧
      qdiv (qabs (qsub (df.high ls) (df.high rs))) (df.high ls) < mkRat 1 10 then
    let lt := idxminOver df.low ls h
    let rt := idxminOver df.low h rs
    match (tailRange rs df.len).find?
        (fun idx => decide (rt ≠ lt) && decide (df.low idx < hsNecklineAt df lt rt idx)) with
    | some bd => some ⟨ls, h, rs, df.low lt, df.low rt, bd⟩
    | none => none
  else none

/-- `detect_head_and_shoulders(df)` (HeadAndShoulder.py lines 111–214): the
required-columns check returns the all-`None` result, then needs
≥ `window_size * 3 = 15` rows, then the first qualifying consecutive peak
triple with a breakdown. -/
def detect_head_and_shoulders (df : DataFrame) : Option HSPattern :=
  if !hasRequiredColumns df then none
  else if df.len < 15 then none
  else firstSome? (hsTryTriple df) (consecTriples (hsPeaks df))

/-- The possible returns of `invokeHeadAndShoulders` (HeadAndShoulder.py lines
277–335), with the numeric content of the detected-case message. -/
inductive HSInvoke where
  | insufficientData
  | noPattern
  | detected (pat : HSPattern) (target : ℚ) (confirmed : Bool)
deriving DecidableEq

/-- `invokeHeadAndShoulders(df)`: the length gate (< 15), detection, the
message's target price (neckline interpolated between the **shoulders** at the
breakdown, minus the head height above it) and the confirmed status
(`current_price < breakdown Low`). -/
def invokeHeadAndShoulders (df : DataFrame) : HSInvoke :=
  if df.len < 15 then .insufficientData
  else
    match detect_head_and_shoulders df with
    | none => .noPattern
    | some pat =>
      let head_price := df.high pat.head
      let neckline_at_breakdown :=
        if pat.rightShoulder ≠ pat.leftShoulder then
          qadd pat.necklineLeft
            (qdiv (qmul (qsub pat.necklineRight pat.necklineLeft)
                (qsub (qofInt pat.breakdown) (qofInt pat.leftShoulder)))
              (qsub (qofInt pat.rightShoulder) (qofInt pat.leftShoulder)))
        else pat.necklineLeft
      let pattern_height := qsub head_price neckline_at_breakdown
      let target_price := qsub neckline_at_breakdown pattern_height
      let current_price := df.close (df.len - 1)
      .detected pat target_price (decide (current_price < df.low pat.breakdown))

/-! ## Cup and handle — `src/algos/CupAndHandle.py` -/

/-- The `pattern_data` dict built by `detect_cup_and_handle` (CupAndHandle.py
lines 162–177). -/
structure CupPattern where
  left_rim_idx : ℕ
  left_rim_price : ℚ
  cup_bottom_idx : ℕ
  cup_bottom_price : ℚ
  right_rim_idx : ℕ
  right_rim_price : ℚ
  handle_bottom_idx : ℕ
  handle_bottom_price : ℚ
  breakout_idx : ℕ
  breakout_price : ℚ
  cup_depth : ℚ
  handle_depth : ℚ
  cup_periods : ℕ
  handle_periods : ℕ
deriving DecidableEq

/-- One iteration of the scan loop of `detect_cup_and_handle` (CupAndHandle.py
lines 78–178) at right-rim candidate position `i`:
left rim = first `High`-maximum of `iloc[max(0, i-40) : i-20]`;
cup bottom = first `Low`-minimum of the inclusive slice `[left_rim, i]`;
cup depth ≥ `cup_depth_threshold = 0.15` of the left-rim price;
right rim within 5% of the left-rim price;
handle = `iloc[i : i+15]` with ≥ 5 rows, handle bottom = its first
`Low`-minimum; `handle_depth / right_rim_price ≥ 0.03` and
`handle_depth / cup_depth ≤ handle_max_depth = 0.5`; the handle bottom at or
above the cup midline; breakout = first close strictly above the right-rim
price after the handle bottom. -/
def chTryIdx (df : DataFrame) (i : ℕ) : Option CupPattern :=
  let left_rim_idx := i - 30
  let left_rim_offset := idxmaxOver df.high (left_rim_idx - 10) (left_rim_idx + 10 - 1)
  let left_rim_price := df.high left_rim_offset
  let cup_bottom_offset := idxminOver df.low left_rim_offset i
  let cup_bottom_price := df.low cup_bottom_offset
  let cup_depth := qsub left_rim_price cup_bottom_price
  if qdiv cup_depth left_rim_price < mkRat 15 100 then none
  else
    let right_rim_price := df.high i
    if qdiv (qabs (qsub right_rim_price left_rim_price)) left_rim_price > mkRat 5 100 then
      none
    else
      let handle_len := min 15 (df.len - i)
      if handle_len < 5 then none
      else
        let handle_bottom_offset := idxminOver df.low i (i + handle_len - 1)
        let handle_bottom_price := df.low handle_bottom_offset
        let handle_depth := qsub right_rim_price handle_bottom_price
        if qdiv handle_depth right_rim_price < mkRat 3 100 ∨
            qdiv handle_depth cup_depth > mkRat 5 10 then none
        else if handle_bottom_price < qadd cup_bottom_price (qmul cup_depth (mkRat 5 10)) then
          none
        else
          match (tailRange (handle_bottom_offset + 1) df.len).find?
              (fun j => decide (df.close j > right_rim_price)) with
          | some breakout_idx =>
            some ⟨left_rim_offset, left_rim_price, cup_bottom_offset, cup_bottom_price,
              i, right_rim_price, handle_bottom_offset, handle_bottom_price,
              breakout_idx, df.close breakout_idx, cup_depth, handle_depth,
              i + 1 - left_rim_offset, handle_len⟩
          | none => none

/-- `detect_cup_and_handle(df)` (CupAndHandle.py lines 41–180): needs ≥ 60
rows, then scans right-rim candidates `i ∈ [30, len - 15)`, first match wins. -/
def detect_cup_and_handle (df : DataFrame) : Option CupPattern :=
  if df.len < 60 then none
  else firstSome? (chTryIdx df) (tailRange 30 (df.len - 15))

/-- The possible returns of `invokeCupAndHandle` (CupAndHandle.py lines
269–323), with the numeric content of the detected-case message. -/
inductive CHInvoke where
  | insufficientData
  | noPattern
  | detected (pat : CupPattern) (target : ℚ) (confirmed : Bool)
deriving DecidableEq

/-- `invokeCupAndHandle(df)`: the length gate (< 60), detection,
`target_price = breakout_price + cup_depth`, and the breakout-confirmed status
(`not (current_price < breakout_price)`). -/
def invokeCupAndHandle (df : DataFrame) : CHInvoke :=
  if df.len < 60 then .insufficientData
  else
    match detect_cup_and_handle df with
    | none => .noPattern
    | some pat =>
      let target_price := qadd pat.breakout_price pat.cup_depth
      let current_price := df.close (df.len - 1)
      .detected pat target_price (decide (¬ current_price < pat.breakout_price))

/-! ## Spec-side predicates and concrete test series -/

/-- Follows the words of claim C5 (not the source): bar `i` is a peak iff its
high is the window maximum **with ties broken by earliest position**. -/
def specC5_peak (df : DataFrame) (i : ℕ) : Prop :=
  df.high i = maxOver df.high (i - 5) (i + 5) ∧
  ∀ j, i - 5 ≤ j → j ≤ i + 5 → df.high j = maxOver df.high (i - 5) (i + 5) → i ≤ j

/-- High profile shared by the synthetic double-top series: ramps up to a high
of 150 at position 20, down to 130 at position 40, up to 150 at position 60,
then down; the only window maxima are the two tops. -/
def dtHighZ (i : ℕ) : ℤ :=
  if i = 20 ∨ i = 60 then 150
  else if i < 20 then 130 + (i : ℤ)
  else if i < 40 then 150 - ((i : ℤ) - 20)
  else if i < 60 then 130 + ((i : ℤ) - 40)
  else 150 - ((i : ℤ) - 60)

/-- The series of the spec's double-top example, taken literally: two highs of
150 at positions 20 and 60, a low of 120 between them (at 40), and closes of
155 after position 70 — every close stays at or above the 120 support. -/
def series155 : DataFrame where
  len := 90
  opn := fun _ => 0
  high := fun i => qofInt (dtHighZ i)
  low := fun i => qofInt (if i = 40 then 120 else 125)
  close := fun i => qofInt (if i ≤ 70 then 130 else 155)

/-- The spec's double-top example with the confirmation the code actually
requires: closes drop to 115 (below the 120 support) from position 75 on. -/
def series115 : DataFrame where
  len := 90
  opn := fun _ => 0
  high := fun i => qofInt (dtHighZ i)
  low := fun i => qofInt (if i = 40 then 120 else if 75 ≤ i then 114 else 125)
  close := fun i => qofInt (if i < 75 then 130 else 115)

/-- A double-top series whose first close below the support happens 35 bars
after the second top (position 95), far beyond any 10–30 bar lookahead. -/
def seriesC6 : DataFrame where
  len := 100
  opn := fun _ => 0
  high := fun i => qofInt (dtHighZ i)
  low := fun i => qofInt (if i = 40 then 120 else if 95 ≤ i then 114 else 125)
  close := fun i => qofInt (if i < 95 then 130 else 115)

/-- A 20-bar series with two tied highs of 150 at positions 8 and 10 (5 bars
apart, so each lies in the other's centered 11-bar window). -/
def c5df : DataFrame where
  len := 20
  opn := fun _ => 0
  high := fun i => if i = 8 ∨ i = 10 then 150 else qofInt (100 + (i : ℤ))
  low := fun i => qofInt (90 + (i : ℤ))
  close := fun i => qofInt (95 + (i : ℤ))

/-- Highs of the head-and-shoulders test series: shoulders of 100 (pos 7) and
102 (pos 21), head of 120 (pos 14), no other window maxima. -/
def hsHighL : List ℤ :=
  [80, 81, 82, 83, 84, 85, 86, 100, 95, 94, 93, 94, 95, 96, 120,
   96, 95, 94, 93, 94, 95, 102, 90, 88, 87, 86, 85, 84, 83, 82]

/-- Twice the lows of the head-and-shoulders test series (so that the halved
values 90.5, 91.5, 92.5 stay exact): troughs of 90 at position 10 and 91 at
position 17, and a low of 91.5 at position 24 — below the interpolated
neckline value 92 there, while the close 95 stays above it. -/
def hsLow2L : List ℤ :=
  [156, 158, 160, 162, 164, 166, 168, 194, 184, 182, 180, 181, 182, 184, 234,
   186, 184, 182, 183, 184, 186, 198, 186, 185, 183, 168, 166, 164, 162, 160]

/-- The head-and-shoulders test series. -/
def hsDF : DataFrame where
  len := 30
  opn := fun _ => 0
  high := fun i => qofInt (hsHighL.getD i 0)
  low := fun i => mkRat (hsLow2L.getD i 0) 2
  close := fun _ => 95

/-- Twice the lows of the double-bottom test series: two lows of 95 at
positions 5 and 13. -/
def dbLow2L : List ℤ :=
  [200, 198, 196, 194, 192, 190, 192, 194, 196, 198,
   196, 194, 192, 190, 192, 194, 196, 198, 199, 200]

/-- The double-bottom test series: lows of 95 at positions 5 and 13, the
resistance high 101 at position 9 between them, and the first close above the
resistance (103) at position 16.  Highs sit 2 above the lows and closes 1
above the lows except at the breakout. -/
def dbSeries : DataFrame where
  len := 20
  opn := fun _ => 0
  high := fun i => mkRat (dbLow2L.getD i 0 + 4) 2
  low := fun i => mkRat (dbLow2L.getD i 0) 2
  close := fun i => if i = 16 then qofInt 103 else mkRat (dbLow2L.getD i 0 + 2) 2

/-- `dbSeries` with the `Open` column removed from the schema. -/
def dbNoOpen : DataFrame := { dbSeries with hasOpen := false }

/-- The cup-and-handle test series: left rim 100 at position 5, cup bottom 1
at position 25, right rim 96 at position 35, handle bottom 93.1 at position
40, breakout close 97 at position 45.  The accepted handle depth 2.9 is
≥ 3% of the right-rim price (2.9/96 ≈ 3.02%) but **less** than 3% of the cup
depth (2.97). -/
def seriesCH : DataFrame where
  len := 80
  opn := fun _ => 0
  high := fun i => qofInt (if i = 5 then 100 else if i = 35 then 96 else 80)
  low := fun i => if i = 25 then qofInt 1 else if i = 40 then mkRat 931 10 else qofInt 94
  close := fun i => qofInt (if i = 45 then 97 else 95)

/-- The pattern `detect_cup_and_handle` finds in `seriesCH`. -/
def chPat : CupPattern :=
  ⟨5, 100, 25, 1, 35, 96, 40, mkRat 931 10, 45, 97, 99, mkRat 29 10, 31, 15⟩

/-- The three-price table of the spec's Fibonacci example: swing low 100
(position 0), swing high 200 (position 1), breakout high 210 (position 2). -/
def fibDF : DataFrame where
  len := 3
  opn := fun _ => 0
  high := fun i => if i = 2 then 210 else 200
  low := fun _ => 100
  close := fun _ => 0

/-- An empty table, for the insufficient-data witnesses. -/
def emptyDF : DataFrame where
  len := 0
  opn := fun _ => 0
  high := fun _ => 0
  low := fun _ => 0
  close := fun _ => 0

/-! ## Rising wedge — `src/algos/RisingWedge.py` -/

/-- Sum of a list of rationals, in kernel-executable form. -/
def qsum (l : List ℚ) : ℚ := l.foldl qadd 0

/-- Degree-1 `np.polyfit(x_values, y_values, 1)`: the least-squares
`(slope, intercept)` through the given points, by the closed-form normal
equations `m = (nΣxy − ΣxΣy) / (nΣx² − (Σx)²)`, `b = (Σy − mΣx) / n`. -/
def lsFit (xs : List ℕ) (ys : List ℚ) : ℚ × ℚ :=
  let n := qofInt xs.length
  let sx := qsum (xs.map (fun x => qofInt x))
  let sy := qsum ys
  let sxx := qsum (xs.map (fun x => qmul (qofInt x) (qofInt x)))
  let sxy := qsum (List.zipWith (fun x y => qmul (qofInt x) y) xs ys)
  let slope := qdiv (qsub (qmul n sxy) (qmul sx sy)) (qsub (qmul n sxx) (qmul sx sx))
  (slope, qdiv (qsub sy (qmul slope sx)) n)

/-- The trough marking of `detect_rising_wedge` (RisingWedge.py lines
136–143): `Low == Low.rolling(window=5, center=True).min()`; the centered
5-window is `[i-2, i+2]`, NaN (mask false) at the two edges on each side.
(The peak mask of line 139 is the same computation as `isPeakHS`.) -/
def isTroughRW (df : DataFrame) (i : ℕ) : Bool :=
  decide (2 ≤ i) && decide (i + 2 < df.len) &&
    decide (df.low i = minOver df.low (i - 2) (i + 2))

/-- The positions of potential troughs, in order. -/
def rwTroughs (df : DataFrame) : List ℕ := (List.range df.len).filter (isTroughRW df)

/-- The trendline-selection loop of `detect_rising_wedge` (RisingWedge.py
lines 157–168 and 175–186): the first window of `min_points = 3` consecutive
extrema whose fitted slope is strictly positive. -/
def rwFirstUpward (price : ℕ → ℚ) (idxs : List ℕ) : Option (List ℕ) :=
  firstSome? (fun t : ℕ × ℕ × ℕ =>
    if (lsFit [t.1, t.2.1, t.2.2] [price t.1, price t.2.1, price t.2.2]).1 > 0 then
      some [t.1, t.2.1, t.2.2]
    else none) (consecTriples idxs)

/-- The possible returns of `detect_rising_wedge` (RisingWedge.py lines
112–225): the missing-columns all-`None` tuple, the `([], [], None)`
no-pattern result, or the `(upper_trendline, lower_trendline,
breakdown_point)` tuple whose breakdown may be absent (wedge still forming). -/
inductive RWDetect where
  | badColumns
  | noPattern
  | found (upper lower : List ℕ) (breakdown : Option ℕ)
deriving DecidableEq

/-- `detect_rising_wedge(df)` (RisingWedge.py lines 112–225): required
columns, ≥ `window_size * 3 = 15` rows, ≥ 3 peaks and troughs, first upward
3-point trendline through each, the lower slope strictly steeper than the
upper, and the breakdown = first bar **after** `max(upper[-1], lower[-1])` —
searched to the end of the series — whose close is strictly below the
projected lower trendline `slope_lower · x + intercept_lower`. -/
def detect_rising_wedge (df : DataFrame) : RWDetect :=
  if !hasRequiredColumns df then .badColumns
  else if df.len < 15 then .noPattern
  else
    let peak_indices := hsPeaks df
    let trough_indices := rwTroughs df
    if peak_indices.length < 3 ∨ trough_indices.length < 3 then .noPattern
    else
      match rwFirstUpward df.high peak_indices with
      | none => .noPattern
      | some upper_trendline =>
        match rwFirstUpward df.low trough_indices with
        | none => .noPattern
        | some lower_trendline =>
          let fitU := lsFit upper_trendline (upper_trendline.map df.high)
          let fitL := lsFit lower_trendline (lower_trendline.map df.low)
          if fitL.1 ≤ fitU.1 then .noPattern
          else
            let last_point := max (upper_trendline.getLastD 0) (lower_trendline.getLastD 0)
            .found upper_trendline lower_trendline
              ((tailRange (last_point + 1) df.len).find?
                (fun idx => decide (df.close idx < qadd (qmul fitL.1 (qofInt idx)) fitL.2)))

/-- Highs of the rising-wedge test series: peaks of 100, 110, 120 at
positions 10, 20, 30 (upper trendline slope 1), no other window maxima. -/
def rwHighZ (i : ℕ) : ℤ :=
  if i ≤ 10 then 90 + (i : ℤ)
  else if i ≤ 15 then 100 - 2 * ((i : ℤ) - 10)
  else if i ≤ 20 then 90 + 4 * ((i : ℤ) - 15)
  else if i ≤ 25 then 110 - 2 * ((i : ℤ) - 20)
  else if i ≤ 30 then 100 + 4 * ((i : ℤ) - 25)
  else 120 - ((i : ℤ) - 30)

/-- Lows of the rising-wedge test series: troughs of 60, 80, 100 at positions
15, 25, 35 (lower trendline `2x + 30`, steeper than the upper), no other
window minima. -/
def rwLowZ (i : ℕ) : ℤ :=
  if i ≤ 15 then 90 - 2 * (i : ℤ)
  else if i ≤ 20 then 60 + 6 * ((i : ℤ) - 15)
  else if i ≤ 25 then 90 - 2 * ((i : ℤ) - 20)
  else if i ≤ 30 then 80 + 6 * ((i : ℤ) - 25)
  else if i ≤ 35 then 110 - 2 * ((i : ℤ) - 30)
  else 100 + 6 * ((i : ℤ) - 35)

/-- The rising-wedge test series: wedge landmarks end at position 35, closes
stay at 300 (far above the projected lower trendline) until position 70,
where the close 100 first drops below the projection 170 — 35 bars past the
last landmark. -/
def rwSeries : DataFrame where
  len := 100
  opn := fun _ => 0
  high := fun i => qofInt (rwHighZ i)
  low := fun i => qofInt (rwLowZ i)
  close := fun i => qofInt (if i < 70 then 300 else 100)

/-! ## Bridging the executable arithmetic to the standard `ℚ` operations -/

theorem qofInt_eq (n : ℤ) : qofInt n = (n : ℚ) := by
  rw [qofInt, Rat.divInt_one]

theorem qadd_eq (a b : ℚ) : qadd a b = a + b := by
  have ha : ((a.den : ℚ)) ≠ 0 := Nat.cast_ne_zero.2 a.den_nz
  have hb : ((b.den : ℚ)) ≠ 0 := Nat.cast_ne_zero.2 b.den_nz
  rw [qadd, Rat.divInt_eq_div]
  conv_rhs => rw [← Rat.num_div_den a, ← Rat.num_div_den b]
  rw [div_add_div _ _ ha hb]
  push_cast
  ring_nf

theorem qsub_eq (a b : ℚ) : qsub a b = a - b := by
  have ha : ((a.den : ℚ)) ≠ 0 := Nat.cast_ne_zero.2 a.den_nz
  have hb : ((b.den : ℚ)) ≠ 0 := Nat.cast_ne_zero.2 b.den_nz
  rw [qsub, Rat.divInt_eq_div]
  conv_rhs => rw [← Rat.num_div_den a, ← Rat.num_div_den b]
  rw [div_sub_div _ _ ha hb]
  push_cast
  ring_nf

theorem qmul_eq (a b : ℚ) : qmul a b = a * b := by
  have ha : ((a.den : ℚ)) ≠ 0 := Nat.cast_ne_zero.2 a.den_nz
  have hb : ((b.den : ℚ)) ≠ 0 := Nat.cast_ne_zero.2 b.den_nz
  rw [qmul, Rat.divInt_eq_div]
  conv_rhs => rw [← Rat.num_div_den a, ← Rat.num_div_den b]
  rw [div_mul_div_comm]
  push_cast
  ring_nf

theorem qdiv_eq (a b : ℚ) : qdiv a b = a / b := by
  by_cases hb0 : b = 0
  · subst hb0
    simp [qdiv, Rat.divInt_eq_div]
  · have ha : ((a.den : ℚ)) ≠ 0 := Nat.cast_ne_zero.2 a.den_nz
    have hb : ((b.den : ℚ)) ≠ 0 := Nat.cast_ne_zero.2 b.den_nz
    have hbn : ((b.num : ℚ)) ≠ 0 := by
      exact_mod_cast Rat.num_ne_zero.2 hb0
    rw [qdiv, Rat.divInt_eq_div]
    conv_rhs => rw [← Rat.num_div_den a, ← Rat.num_div_den b]
    rw [div_div_div_comm]
    push_cast
    rw [div_div_eq_mul_div, div_mul_eq_mul_div, mul_comm]
    ring_nf

theorem rat_blt_iff (a b : ℚ) : Rat.blt a b = true ↔ a < b := Iff.rfl

theorem qabs_eq (a : ℚ) : qabs a = |a| := by
  rw [qabs]
  by_cases h : a < 0
  · rw [if_pos ((rat_blt_iff a 0).2 h), abs_of_neg h]
    rfl
  · rw [if_neg (by rw [rat_blt_iff]; exact h), abs_of_nonneg (not_lt.1 h)]

theorem qmax_eq (a b : ℚ) : qmax a b = max a b := by
  rw [qmax]
  by_cases h : a < b
  · rw [if_pos ((rat_blt_iff a b).2 h), max_eq_right h.le]
  · rw [if_neg (by rw [rat_blt_iff]; exact h), max_eq_left (not_lt.1 h)]

theorem qmin_eq (a b : ℚ) : qmin a b = min a b := by
  rw [qmin]
  by_cases h : b < a
  · rw [if_pos ((rat_blt_iff b a).2 h), min_eq_right h.le]
  · rw [if_neg (by rw [rat_blt_iff]; exact h), min_eq_left (not_lt.1 h)]

theorem mkRat_as_div (n : ℤ) (d : ℕ) : mkRat n d = (n : ℚ) / d := by
  rw [Rat.mkRat_eq_divInt, Rat.divInt_eq_div]
  norm_num

/-! ## Slice and scan lemmas -/

theorem le_foldl_qmax_init (l : List ℚ) (a : ℚ) : a ≤ l.foldl qmax a := by
  induction l generalizing a with
  | nil => exact le_refl a
  | cons x xs ih =>
    calc a ≤ qmax a x := by rw [qmax_eq]; exact le_max_left a x
    _ ≤ (x :: xs).foldl qmax a := by exact ih (qmax a x)

theorem le_foldl_qmax_mem {l : List ℚ} {y : ℚ} (a : ℚ) (hy : y ∈ l) :
    y ≤ l.foldl qmax a := by
  induction l generalizing a with
  | nil => cases hy
  | cons x xs ih =>
    rcases List.mem_cons.1 hy with h | h
    · subst h
      calc y ≤ qmax a y := by rw [qmax_eq]; exact le_max_right a y
      _ ≤ xs.foldl qmax (qmax a y) := le_foldl_qmax_init xs _
    · rw [List.foldl_cons]
      exact ih (qmax a x) h

theorem foldl_qmax_cases (l : List ℚ) (a : ℚ) :
    l.foldl qmax a = a ∨ l.foldl qmax a ∈ l := by
  induction l generalizing a with
  | nil => exact Or.inl rfl
  | cons x xs ih =>
    rcases ih (qmax a x) with h | h
    · rw [List.foldl_cons, h, qmax]
      by_cases hx : Rat.blt a x
      · rw [if_pos hx]; exact Or.inr (List.mem_cons_self x xs)
      · rw [if_neg hx]; exact Or.inl rfl
    · exact Or.inr (List.mem_cons_of_mem x h)

theorem le_listMaxQ {l : List ℚ} {y : ℚ} (hy : y ∈ l) : y ≤ listMaxQ l := by
  cases l with
  | nil => cases hy
  | cons x xs =>
    rcases List.mem_cons.1 hy with h | h
    · subst h; exact le_foldl_qmax_init xs y
    · exact le_foldl_qmax_mem x h

theorem listMaxQ_mem {l : List ℚ} (hl : l ≠ []) : listMaxQ l ∈ l := by
  cases l with
  | nil => exact absurd rfl hl
  | cons x xs =>
    rcases foldl_qmax_cases xs x with h | h
    · rw [listMaxQ, h]; exact List.mem_cons_self x xs
    · exact List.mem_cons_of_mem x h

theorem mem_locRange {a b i : ℕ} : i ∈ locRange a b ↔ a ≤ i ∧ i ≤ b := by
  rw [locRange, List.mem_range']
  constructor
  · rintro ⟨j, hj, rfl⟩
    omega
  · rintro ⟨h1, h2⟩
    exact ⟨i - a, by omega, by omega⟩

theorem maxOver_le {f : ℕ → ℚ} {a b j : ℕ} (h1 : a ≤ j) (h2 : j ≤ b) :
    f j ≤ maxOver f a b :=
  le_listMaxQ (List.mem_map_of_mem f (mem_locRange.2 ⟨h1, h2⟩))

theorem maxOver_mem {f : ℕ → ℚ} {a b : ℕ} (h : a ≤ b) :
    ∃ j, a ≤ j ∧ j ≤ b ∧ maxOver f a b = f j := by
  have hne : (locRange a b).map f ≠ [] := by
    intro hcon
    have : a ∈ locRange a b := mem_locRange.2 ⟨le_refl a, h⟩
    rw [List.map_eq_nil_iff] at hcon
    rw [hcon] at this
    cases this
  obtain ⟨j, hj, hje⟩ := List.mem_map.1 (listMaxQ_mem hne)
  exact ⟨j, (mem_locRange.1 hj).1, (mem_locRange.1 hj).2, hje.symm⟩

theorem mem_tailRange {a n i : ℕ} : i ∈ tailRange a n ↔ a ≤ i ∧ i < n := by
  rw [tailRange, List.mem_range']
  constructor
  · rintro ⟨j, hj, rfl⟩; omega
  · rintro ⟨h1, h2⟩; exact ⟨i - a, by omega, by omega⟩

theorem find?_range'_eq_some {p : ℕ → Bool} {a n k : ℕ}
    (h : (List.range' a n).find? p = some k) :
    p k = true ∧ a ≤ k ∧ k < a + n ∧ ∀ m, a ≤ m → m < k → p m = false := by
  induction n generalizing a with
  | zero => simp at h
  | succ n ih =>
    rw [List.range'_succ] at h
    by_cases hpa : p a
    · rw [List.find?_cons_of_pos _ hpa] at h
      cases h
      exact ⟨hpa, le_refl k, by omega, fun m h1 h2 => absurd (lt_of_le_of_lt h1 h2) (lt_irrefl k)⟩
    · rw [List.find?_cons_of_neg _ hpa] at h
      obtain ⟨hk, h1, h2, h3⟩ := ih h
      refine ⟨hk, by omega, by omega, fun m hm1 hm2 => ?_⟩
      rcases Nat.eq_or_lt_of_le hm1 with rfl | hm1'
      · exact Bool.not_eq_true _ ▸ (by simpa using hpa)
      · exact h3 m hm1' hm2

theorem firstSome?_eq_some {f : α → Option β} {l : List α} {b : β}
    (h : firstSome? f l = some b) : ∃ a ∈ l, f a = some b := by
  induction l with
  | nil => cases h
  | cons x xs ih =>
    rw [firstSome?] at h
    cases hx : f x with
    | some v =>
      rw [hx] at h
      cases h
      exact ⟨x, List.mem_cons_self x xs, hx⟩
    | none =>
      rw [hx] at h
      obtain ⟨a, ha, hfa⟩ := ih h
      exact ⟨a, List.mem_cons_of_mem x ha, hfa⟩

theorem pairScan_eq_some {f : ℕ → ℕ → Option α} {l : List ℕ} {r : α}
    (h : pairScan f l = some r) : ∃ p q, p ∈ l ∧ q ∈ l ∧ f p q = some r := by
  induction l with
  | nil => cases h
  | cons x xs ih =>
    rw [pairScan] at h
    cases hx : firstSome? (f x) xs with
    | some v =>
      rw [hx] at h
      cases h
      obtain ⟨q, hq, hfq⟩ := firstSome?_eq_some hx
      exact ⟨x, q, List.mem_cons_self x xs, List.mem_cons_of_mem x hq, hfq⟩
    | none =>
      rw [hx] at h
      obtain ⟨p, q, hp, hq, hfq⟩ := ih h
      exact ⟨p, q, List.mem_cons_of_mem x hp, List.mem_cons_of_mem x hq, hfq⟩

/-! ## What a successful double-top detection guarantees -/

theorem dtTryPair_eq_some {df : DataFrame} {p q : ℕ} {r : ℕ × ℕ × ℕ}
    (h : dtTryPair df p q = some r) :
    10 ≤ q - p ∧
    ¬ qdiv (qabs (qsub (df.high p) (df.high q))) (df.high p) > mkRat 3 100 ∧
    3 ≤ df.len - q ∧
    ∃ k, r = (p, q, k) ∧
      (tailRange q df.len).find? (fun m => decide (df.close m < minOver df.low p q)) = some k := by
  simp only [dtTryPair] at h
  split_ifs at h with h1 h2 h3
  cases hf : (tailRange q df.len).find? (fun m => decide (df.close m < minOver df.low p q)) with
  | some k =>
    rw [hf] at h
    cases h
    exact ⟨by omega, h2, by omega, k, rfl, rfl⟩
  | none =>
    rw [hf] at h
    cases h

theorem detect_double_top_spec {df : DataFrame} {p q k : ℕ}
    (h : detect_double_top df = some (p, q, k)) :
    isPeakDT df p = true ∧ isPeakDT df q = true ∧
    10 ≤ q - p ∧
    |df.high p - df.high q| / df.high p ≤ 3 / 100 ∧
    q ≤ k ∧ k < df.len ∧
    df.close k < minOver df.low p q ∧
    ∀ m, q ≤ m → m < k → ¬ df.close m < minOver df.low p q := by
  rw [detect_double_top] at h
  split_ifs at h with hlen
  obtain ⟨p', q', hp', hq', htry⟩ := pairScan_eq_some h
  obtain ⟨hdist, hpct, hafter, k', hr, hfind⟩ := dtTryPair_eq_some htry
  injection hr with ha hrest
  injection hrest with hb hc
  subst ha
  subst hb
  subst hc
  have hpct' : |df.high p - df.high q| / df.high p ≤ 3 / 100 := by
    rw [not_lt] at hpct
    rw [qdiv_eq, qabs_eq, qsub_eq, mkRat_as_div] at hpct
    push_cast at hpct
    exact hpct
  obtain ⟨hpk, hk1, hk2, hmin⟩ := find?_range'_eq_some (p := fun m =>
    decide (df.close m < minOver df.low p q)) hfind
  have hklen : k < df.len := by omega
  refine ⟨(List.mem_filter.1 hp').2, (List.mem_filter.1 hq').2, hdist, hpct', hk1, hklen,
    of_decide_eq_true hpk, fun m hm1 hm2 => ?_⟩
  have := hmin m hm1 hm2
  simpa using this

/-! ## Claim C1 — the signal voter -/

theorem sma_vote_fst (c s20 s50 : ℚ) :
    (sma_vote c s20 s50).1 = if c > s20 ∧ s20 > s50 then 1 else 0 := by
  unfold sma_vote
  split_ifs with h1 h2 <;> rfl

theorem sma_vote_snd (c s20 s50 : ℚ) :
    (sma_vote c s20 s50).2 = if c < s20 ∧ s20 < s50 then 1 else 0 := by
  unfold sma_vote
  split_ifs with h1 h2 h3 <;> first
  | rfl
  | (exfalso; rcases h1 with ⟨ha, hb⟩; rcases h2 with ⟨hc, hd⟩; exact absurd hc (not_lt.2 ha.le))

theorem rsi_vote_fst (r : ℚ) : (rsi_vote r).1 = if r < 30 then 1 else 0 := by
  unfold rsi_vote
  split_ifs with h1 h2 <;> first
  | rfl
  | (exfalso; linarith)

theorem rsi_vote_snd (r : ℚ) : (rsi_vote r).2 = if r > 70 then 1 else 0 := by
  unfold rsi_vote
  split_ifs with h1 h2 <;> rfl

theorem macd_vote_fst (m ms : ℚ) : (macd_vote m ms).1 = if m > ms then 1 else 0 := by
  unfold macd_vote
  split_ifs with h1 h2 <;> rfl

theorem macd_vote_snd (m ms : ℚ) : (macd_vote m ms).2 = if m < ms then 1 else 0 := by
  unfold macd_vote
  split_ifs with h1 h2 <;> first
  | rfl
  | (exfalso; linarith)

/-- Claim C1, counterexample: with every indicator neutral and the MACD line
**equal** to its signal line, `analyze_data` votes nothing and returns
`("Hold", 0)`, while the claim's rule "MACD votes Bullish if above the signal
line and else Bearish" predicts one bearish vote and hence
`("Sell", 33.3…)`. -/
theorem claim_C1_counterexample :
    analyze_data_vote 100 100 100 50 5 5 = ("Hold", 0) ∧
    specC1_signal 100 100 100 50 5 5 = ("Sell", 100 / 3) ∧
    analyze_data_vote 100 100 100 50 5 5 ≠ specC1_signal 100 100 100 50 5 5 := by
  refine ⟨by decide, ?_, ?_⟩
  · unfold specC1_signal specC1_bullish specC1_bearish
    norm_num
    rw [qmul_eq, qdiv_eq, qofInt_eq]
    norm_num
  · intro hcon
    have h1 : analyze_data_vote 100 100 100 50 5 5 = ("Hold", 0) := by decide
    rw [h1] at hcon
    unfold specC1_signal specC1_bullish specC1_bearish at hcon
    norm_num at hcon
    exact absurd hcon.1 (by decide)

/-- Claim C1, amended: on the latest bar's indicator values, `analyze_data`
votes exactly as claimed — SMA Bullish iff close > SMA20 > SMA50 (mirrored for
Bearish), RSI Bullish iff RSI < 30 and Bearish iff RSI > 70, MACD Bullish if
above the signal line, **Bearish if below and Neutral if equal** — and returns
Buy/Sell by strict vote majority (else Hold) with confidence
`|bullish − bearish| / 3 × 100`. -/
theorem claim_C1_amended (c s20 s50 r m ms : ℚ) :
    analyze_data_vote c s20 s50 r m ms = specC1A_signal c s20 s50 r m ms := by
  unfold analyze_data_vote specC1A_signal specC1_bullish specC1A_bearish
  rw [sma_vote_fst, sma_vote_snd, rsi_vote_fst, rsi_vote_snd, macd_vote_fst, macd_vote_snd]

/-! ## Claim C2 — the Fibonacci calculator -/

/-- Claim C2: for any three prices (the `Low` at the swing low, the `High` at
the swing high, the `High` at the breakout), the retracement levels are
`low + range × r` for the five standard ratios and the extension levels are
`breakout + range × r` for the three extension ratios; for 100/200/210 the 0.5
retracement is 150 and the 1.618 extension is 371.8. -/
theorem claim_C2 :
    (∀ (df : DataFrame) (sl sh bo : ℕ),
      calculate_fibonacci_levels df sl sh =
        [("Fibonacci 0.236 Level", df.low sl + (df.high sh - df.low sl) * (236 / 1000)),
         ("Fibonacci 0.382 Level", df.low sl + (df.high sh - df.low sl) * (382 / 1000)),
         ("Fibonacci 0.5 Level", df.low sl + (df.high sh - df.low sl) * (5 / 10)),
         ("Fibonacci 0.618 Level", df.low sl + (df.high sh - df.low sl) * (618 / 1000)),
         ("Fibonacci 0.786 Level", df.low sl + (df.high sh - df.low sl) * (786 / 1000))] ∧
      calculate_fibonacci_extensions df sl sh bo =
        [("Fibonacci 1.618 Extension", df.high bo + (df.high sh - df.low sl) * (1618 / 1000)),
         ("Fibonacci 2.618 Extension", df.high bo + (df.high sh - df.low sl) * (2618 / 1000)),
         ("Fibonacci 3.618 Extension", df.high bo + (df.high sh - df.low sl) * (3618 / 1000))]) ∧
    fibDF.low 0 = 100 ∧ fibDF.high 1 = 200 ∧ fibDF.high 2 = 210 ∧
    (calculate_fibonacci_levels fibDF 0 1).lookup "Fibonacci 0.5 Level" = some 150 ∧
    (calculate_fibonacci_extensions fibDF 0 1 2).lookup "Fibonacci 1.618 Extension" =
      some (3718 / 10) := by
  refine ⟨fun df sl sh bo => ⟨?_, ?_⟩, by decide, by decide, by decide, by decide, ?_⟩
  · simp only [calculate_fibonacci_levels, qadd_eq, qsub_eq, qmul_eq, mkRat_as_div]
    norm_num
  · simp only [calculate_fibonacci_extensions, qadd_eq, qsub_eq, qmul_eq, mkRat_as_div]
    norm_num
  · simp only [calculate_fibonacci_extensions, fibDF, List.lookup, qadd_eq, qsub_eq, qmul_eq,
      mkRat_as_div]
    norm_num

/-! ## Claim C7 — insufficient data never raises -/

/-- Claim C7: every matcher entry point returns its explicit insufficient-data
result below the stated minimum length (20 for double top, 60 for cup and
handle, 10 for double bottom, 15 for head and shoulders); being total Lean
functions of the embedded code — whose Python originals wrap their whole body
in `try/except` returning a message tuple — they return a value on every
input. -/
theorem claim_C7 :
    (∀ df : DataFrame, df.len < 20 → invokeDoubleTop df = .insufficientData) ∧
    (∀ df : DataFrame, df.len < 60 → invokeCupAndHandle df = .insufficientData) ∧
    (∀ df : DataFrame, df.len < 10 → invokeDoubleBottom df = .insufficientData) ∧
    (∀ df : DataFrame, df.len < 15 → invokeHeadAndShoulders df = .insufficientData) := by
  refine ⟨fun df h => ?_, fun df h => ?_, fun df h => ?_, fun df h => ?_⟩
  · rw [invokeDoubleTop, if_pos h]
  · rw [invokeCupAndHandle, if_pos h]
  · rw [invokeDoubleBottom, if_pos h]
  · rw [invokeHeadAndShoulders, if_pos h]

/-- Claim C7, witness: the four insufficient-data results on the empty table. -/
theorem claim_C7_witness :
    invokeDoubleTop emptyDF = .insufficientData ∧
    invokeCupAndHandle emptyDF = .insufficientData ∧
    invokeDoubleBottom emptyDF = .insufficientData ∧
    invokeHeadAndShoulders emptyDF = .insufficientData :=
  ⟨claim_C7.1 emptyDF (by decide), claim_C7.2.1 emptyDF (by decide),
   claim_C7.2.2.1 emptyDF (by decide), claim_C7.2.2.2 emptyDF (by decide)⟩

/-! ## Claim C5 — the extrema detector -/

/-- Claim C5, amended: for a bar with a full window (5 bars each side), the
double-top peak mark is set iff the bar's high is a maximum of the highs over
`[i-5, i+5]` — **every** bar tied for the window maximum is marked, with no
earliest-position tie-breaking; bars without a full window are never marked. -/
theorem claim_C5_amended (df : DataFrame) (i : ℕ) :
    (5 ≤ i → i + 5 < df.len →
      (isPeakDT df i = true ↔ ∀ j, i - 5 ≤ j → j ≤ i + 5 → df.high j ≤ df.high i)) ∧
    (¬ (5 ≤ i ∧ i + 5 < df.len) → isPeakDT df i = false) := by
  constructor
  · intro h5 hlen
    simp only [isPeakDT, Bool.and_eq_true, decide_eq_true_eq]
    constructor
    · rintro ⟨⟨-, -⟩, hmax⟩ j hj1 hj2
      rw [hmax]
      exact maxOver_le hj1 hj2
    · intro hall
      refine ⟨⟨h5, hlen⟩, le_antisymm (maxOver_le (by omega) (by omega)) ?_⟩
      obtain ⟨j, hj1, hj2, hje⟩ := maxOver_mem (f := df.high) (a := i - 5) (b := i + 5) (by omega)
      rw [hje]
      exact hall j hj1 hj2
  · intro h
    rw [Bool.eq_false_iff]
    intro hcon
    simp only [isPeakDT, Bool.and_eq_true, decide_eq_true_eq] at hcon
    exact h hcon.1

/-- Claim C5, counterexample: in `c5df` the highs at positions 8 and 10 are
tied at 150 and 5 bars apart; position 10 is marked a peak by the code even
though the tie is not broken in its favour (position 8 attains the same window
maximum earlier), refuting the claimed earliest-position tie-breaking. -/
theorem claim_C5_counterexample :
    isPeakDT c5df 10 = true ∧ ¬ specC5_peak c5df 10 := by
  constructor
  · decide
  · rintro ⟨h1, h2⟩
    have := h2 8 (by norm_num) (by norm_num) (by decide)
    omega

/-- Claim C5, witness: the amended characterisation applied at `c5df`,
position 8. -/
theorem claim_C5_witness : c5df.high 7 ≤ c5df.high 8 :=
  ((claim_C5_amended c5df 8).1 (by decide) (by decide)).mp (by decide) 7 (by decide) (by decide)

/-! ## Claims C3 and C6 — double-top detection and its confirmation search -/

set_option maxRecDepth 40000

/-- Claim C3, counterexample: on the spec's own synthetic series — two highs
of 150 at positions 20 and 60, a low of 120 between them, closes of 155 after
position 70 — `detect_double_top` finds nothing at all, because its
confirmation requires a close strictly **below** the 120 support and every
close stays at or above it; no Confirmed candidate with breakout in (70, 90]
exists. -/
theorem claim_C3_counterexample :
    series155.high 20 = 150 ∧ series155.high 60 = 150 ∧ series155.low 40 = 120 ∧
    minOver series155.low 20 60 = 120 ∧
    (∀ k : ℕ, k < 90 → 70 < k → series155.close k = 155) ∧
    detect_double_top series155 = none ∧
    invokeDoubleTop series155 = .noPattern := by
  refine ⟨by decide, by decide, by decide, by decide, by decide, by decide, by decide⟩

/-- Claim C3, amended: double-top detection returns two marked peaks at least
`min_distance = 10` bars apart with highs within the 3% threshold, support =
minimum low between them, and breakout = first bar from the second peak onward
whose close is strictly **below** that support; on the spec's synthetic series
with the closes dropping below the support (115 from position 75), the
detection is `(20, 60, 75)` with breakout position 75 ∈ (70, 90], confirmed
status, and target price `120 − (150 − 120) = 90`. -/
theorem claim_C3_amended :
    (∀ (df : DataFrame) (p q k : ℕ), detect_double_top df = some (p, q, k) →
      isPeakDT df p = true ∧ isPeakDT df q = true ∧
      10 ≤ q - p ∧
      |df.high p - df.high q| / df.high p ≤ 3 / 100 ∧
      q ≤ k ∧ k < df.len ∧
      df.close k < minOver df.low p q ∧
      ∀ m, q ≤ m → m < k → ¬ df.close m < minOver df.low p q) ∧
    detect_double_top series115 = some (20, 60, 75) ∧
    invokeDoubleTop series115 = .detected 20 60 75 120 90 true ∧
    70 < 75 ∧ 75 ≤ 90 ∧
    series115.low 40 - (series115.high 20 - series115.low 40) = 90 := by
  refine ⟨fun df p q k h => detect_double_top_spec h, by decide, by decide, by decide, by decide, ?_⟩
  have h1 : series115.low 40 = 120 := by decide
  have h2 : series115.high 20 = 150 := by decide
  rw [h1, h2]
  norm_num

/-- Claim C3, witness: the amended guarantees instantiated on `series115` at
the detected pair `(20, 60)` and breakout 75. -/
theorem claim_C3_witness :
    10 ≤ 60 - 20 ∧
    |series115.high 20 - series115.high 60| / series115.high 20 ≤ 3 / 100 ∧
    series115.close 75 < minOver series115.low 20 60 :=
  let h := claim_C3_amended.1 series115 20 60 75 (by decide)
  ⟨h.2.2.1, h.2.2.2.1, h.2.2.2.2.2.2.1⟩

/-- Claim C6, counterexample: on `seriesC6` the first close below the support
comes 35 bars after the second top — beyond every claimed 10–30 bar lookahead
bound — yet `detect_double_top` still returns it as the breakout and
`invokeDoubleTop` reports the pattern with breakdown confirmed: the search is
not bounded. -/
theorem claim_C6_counterexample :
    detect_double_top seriesC6 = some (20, 60, 95) ∧
    30 < 95 - 60 ∧
    invokeDoubleTop seriesC6 = .detected 20 60 95 120 90 true ∧
    (∀ m : ℕ, m < 95 → 60 ≤ m → ¬ seriesC6.close m < minOver seriesC6.low 20 60) := by
  refine ⟨by decide, by decide, by decide, by decide⟩

theorem detect_rising_wedge_spec {df : DataFrame} {u l : List ℕ} {k : ℕ}
    (h : detect_rising_wedge df = .found u l (some k)) :
    max (u.getLastD 0) (l.getLastD 0) < k ∧ k < df.len ∧
    df.close k < (lsFit l (l.map df.low)).1 * k + (lsFit l (l.map df.low)).2 ∧
    ∀ m, max (u.getLastD 0) (l.getLastD 0) < m → m < k →
      ¬ df.close m < (lsFit l (l.map df.low)).1 * m + (lsFit l (l.map df.low)).2 := by
  simp only [detect_rising_wedge] at h
  split_ifs at h with h1 h2 h3
  cases hup : rwFirstUpward df.high (hsPeaks df) with
  | none => rw [hup] at h; cases h
  | some U =>
    rw [hup] at h
    dsimp only [] at h
    cases hlo : rwFirstUpward df.low (rwTroughs df) with
    | none => rw [hlo] at h; cases h
    | some L =>
      rw [hlo] at h
      dsimp only [] at h
      split_ifs at h with h4
      cases hf : (tailRange (max (U.getLastD 0) (L.getLastD 0) + 1) df.len).find?
          (fun idx => decide (df.close idx <
            qadd (qmul (lsFit L (L.map df.low)).1 (qofInt idx)) (lsFit L (L.map df.low)).2)) with
      | some k' =>
        rw [hf] at h
        injection h with hU hL hbd
        subst hU
        subst hL
        injection hbd with hk
        subst hk
        obtain ⟨hpk, hb1, hb2, hmin⟩ := find?_range'_eq_some hf
        have hpk' := of_decide_eq_true hpk
        rw [qadd_eq, qmul_eq, qofInt_eq] at hpk'
        push_cast at hpk'
        refine ⟨by omega, by omega, hpk', fun m hm1 hm2 => ?_⟩
        have hfm := hmin m (by omega) hm2
        rw [decide_eq_false_iff_not] at hfm
        intro hcon
        apply hfm
        rw [qadd_eq, qmul_eq, qofInt_eq]
        push_cast
        exact hcon
      | none =>
        rw [hf] at h
        injection h with hU hL hbd
        cases hbd

/-- Claim C6, amended: the cited confirmation searches are unbounded — the
double-top scan (`df.loc[second_peak:]`) and the rising-wedge scan
(`df.loc[last_point:].iloc[1:]`) both run from the last landmark to the end
of the series, constraining the breakout bar only to lie at/after the
landmark and before the series end; on the concrete series a qualifying close
35 bars past the last landmark (beyond every claimed 10–30 bar window) still
yields the detection in both matchers. -/
theorem claim_C6_amended :
    (∀ (df : DataFrame) (p q k : ℕ), detect_double_top df = some (p, q, k) →
      q ≤ k ∧ k < df.len ∧ df.close k < minOver df.low p q ∧
      ∀ m, q ≤ m → m < k → ¬ df.close m < minOver df.low p q) ∧
    (∀ (df : DataFrame) (u l : List ℕ) (k : ℕ),
      detect_rising_wedge df = .found u l (some k) →
      max (u.getLastD 0) (l.getLastD 0) < k ∧ k < df.len ∧
      df.close k < (lsFit l (l.map df.low)).1 * k + (lsFit l (l.map df.low)).2 ∧
      ∀ m, max (u.getLastD 0) (l.getLastD 0) < m → m < k →
        ¬ df.close m < (lsFit l (l.map df.low)).1 * m + (lsFit l (l.map df.low)).2) ∧
    detect_double_top seriesC6 = some (20, 60, 95) ∧ 95 - 60 = 35 ∧
    detect_rising_wedge rwSeries = .found [10, 20, 30] [15, 25, 35] (some 70) ∧
    70 - 35 = 35 := by
  refine ⟨fun df p q k h => ?_, fun df u l k h => detect_rising_wedge_spec h,
    by decide, by decide, by decide, by decide⟩
  obtain ⟨-, -, -, -, h5, h6, h7, h8⟩ := detect_double_top_spec h
  exact ⟨h5, h6, h7, h8⟩

/-- Claim C6, witness: the unbounded-scan guarantees instantiated on the two
concrete series — breakouts 35 bars past the last landmark in both the
double-top and rising-wedge detections. -/
theorem claim_C6_witness :
    (60 ≤ 95 ∧ 95 < seriesC6.len ∧ seriesC6.close 95 < minOver seriesC6.low 20 60) ∧
    (max ([10, 20, 30].getLastD 0) ([15, 25, 35].getLastD 0) < 70 ∧ 70 < rwSeries.len ∧
      rwSeries.close 70 <
        (lsFit [15, 25, 35] ([15, 25, 35].map rwSeries.low)).1 * 70 +
          (lsFit [15, 25, 35] ([15, 25, 35].map rwSeries.low)).2) :=
  let h1 := claim_C6_amended.1 seriesC6 20 60 95 (by decide)
  let h2 := claim_C6_amended.2.1 rwSeries [10, 20, 30] [15, 25, 35] 70 (by decide)
  ⟨⟨h1.1, h1.2.1, h1.2.2.1⟩, ⟨h2.1, h2.2.1, h2.2.2.1⟩⟩

/-! ## Claims C8 and C10 — schema errors and the double-bottom Fibonacci inputs -/

/-- Claim C8, amended: a missing required price column does **not** surface a
structural error — `detect_double_bottom` and `detect_head_and_shoulders`
return their ordinary all-`None` result, which the callers report as the
ordinary "no pattern detected" outcome, indistinguishable from a clean
non-detection. -/
theorem claim_C8_amended (df : DataFrame) (h : hasRequiredColumns df = false) :
    detect_double_bottom df = none ∧
    detect_head_and_shoulders df = none ∧
    (10 ≤ df.len → invokeDoubleBottom df = .noPattern) ∧
    (15 ≤ df.len → invokeHeadAndShoulders df = .noPattern) := by
  have hdb : detect_double_bottom df = none := by
    rw [detect_double_bottom, h]
    rfl
  have hhs : detect_head_and_shoulders df = none := by
    rw [detect_head_and_shoulders, h]
    rfl
  refine ⟨hdb, hhs, fun hlen => ?_, fun hlen => ?_⟩
  · rw [invokeDoubleBottom, if_neg (by omega), hdb]
  · rw [invokeHeadAndShoulders, if_neg (by omega), hhs]

/-- Claim C8, counterexample: `dbSeries` contains a detectable double bottom,
and removing only its `Open` column turns the result into the ordinary
"no pattern detected" value — no schema error distinct from the no-detection
result ever reaches the caller. -/
theorem claim_C8_counterexample :
    dbNoOpen.hasOpen = false ∧
    invokeDoubleBottom dbNoOpen = .noPattern ∧
    invokeDoubleBottom dbSeries =
      .detected 5 13 16 (calculate_all_fibonacci_levels dbSeries 5 13 16) := by
  refine ⟨by decide, by decide, by decide⟩

/-- Claim C8, witness: the amended behaviour instantiated on `dbNoOpen`. -/
theorem claim_C8_witness :
    detect_double_bottom dbNoOpen = none ∧ invokeDoubleBottom dbNoOpen = .noPattern :=
  let h := claim_C8_amended dbNoOpen (by decide)
  ⟨h.1, h.2.2.1 (by decide)⟩

/-- Claim C10: whenever `invokeDoubleBottom` reports Fibonacci targets, every
level is a function of exactly three prices — the `Low` at the first low's
index, the `High` at the **second low's** index (passed as
`swing_high_index`), and the `High` (not the Close) of the breakout bar; the
resistance between the two lows appears in no level, as the explicit level
list and the invariance under changes to every other cell show. -/
theorem claim_C10 (df : DataFrame) (f s b : ℕ) (t : List (String × ℚ))
    (h : invokeDoubleBottom df = .detected f s b t) :
    t = calculate_all_fibonacci_levels df f s b ∧
    calculate_all_fibonacci_levels df f s b =
      [("Fibonacci 0.236 Level", df.low f + (df.high s - df.low f) * (236 / 1000)),
       ("Fibonacci 0.382 Level", df.low f + (df.high s - df.low f) * (382 / 1000)),
       ("Fibonacci 0.5 Level", df.low f + (df.high s - df.low f) * (5 / 10)),
       ("Fibonacci 0.618 Level", df.low f + (df.high s - df.low f) * (618 / 1000)),
       ("Fibonacci 0.786 Level", df.low f + (df.high s - df.low f) * (786 / 1000)),
       ("Fibonacci 1.618 Extension", df.high b + (df.high s - df.low f) * (1618 / 1000)),
       ("Fibonacci 2.618 Extension", df.high b + (df.high s - df.low f) * (2618 / 1000)),
       ("Fibonacci 3.618 Extension", df.high b + (df.high s - df.low f) * (3618 / 1000))] ∧
    (∀ df' : DataFrame, df'.low f = df.low f → df'.high s = df.high s →
      df'.high b = df.high b →
      calculate_all_fibonacci_levels df' f s b = calculate_all_fibonacci_levels df f s b) := by
  refine ⟨?_, ?_, ?_⟩
  · rw [invokeDoubleBottom] at h
    by_cases hlen : df.len < 10
    · rw [if_pos hlen] at h
      cases h
    · rw [if_neg hlen] at h
      cases hdet : detect_double_bottom df with
      | none =>
        rw [hdet] at h
        cases h
      | some v =>
        obtain ⟨f', s', b'⟩ := v
        rw [hdet] at h
        injection h with h1 h2 h3 h4
        subst h1
        subst h2
        subst h3
        subst h4
        rfl
  · simp only [calculate_all_fibonacci_levels, calculate_fibonacci_levels,
      calculate_fibonacci_extensions, qadd_eq, qsub_eq, qmul_eq, mkRat_as_div,
      List.cons_append, List.nil_append]
    norm_num
  · intro df' h1 h2 h3
    simp only [calculate_all_fibonacci_levels, calculate_fibonacci_levels,
      calculate_fibonacci_extensions, h1, h2, h3]

/-- Claim C10, witness: the explicit level list on the concrete double bottom
of `dbSeries` (lows 95/95 at 5 and 13, breakout at 16). -/
theorem claim_C10_witness :
    calculate_all_fibonacci_levels dbSeries 5 13 16 =
      [("Fibonacci 0.236 Level",
        dbSeries.low 5 + (dbSeries.high 13 - dbSeries.low 5) * (236 / 1000)),
       ("Fibonacci 0.382 Level",
        dbSeries.low 5 + (dbSeries.high 13 - dbSeries.low 5) * (382 / 1000)),
       ("Fibonacci 0.5 Level",
        dbSeries.low 5 + (dbSeries.high 13 - dbSeries.low 5) * (5 / 10)),
       ("Fibonacci 0.618 Level",
        dbSeries.low 5 + (dbSeries.high 13 - dbSeries.low 5) * (618 / 1000)),
       ("Fibonacci 0.786 Level",
        dbSeries.low 5 + (dbSeries.high 13 - dbSeries.low 5) * (786 / 1000)),
       ("Fibonacci 1.618 Extension",
        dbSeries.high 16 + (dbSeries.high 13 - dbSeries.low 5) * (1618 / 1000)),
       ("Fibonacci 2.618 Extension",
        dbSeries.high 16 + (dbSeries.high 13 - dbSeries.low 5) * (2618 / 1000)),
       ("Fibonacci 3.618 Extension",
        dbSeries.high 16 + (dbSeries.high 13 - dbSeries.low 5) * (3618 / 1000))] :=
  (claim_C10 dbSeries 5 13 16 (calculate_all_fibonacci_levels dbSeries 5 13 16) (by decide)).2.1

/-! ## Claim C4 — head and shoulders -/

theorem hsTryTriple_eq_some {df : DataFrame} {t : ℕ × ℕ × ℕ} {pat : HSPattern}
    (h : hsTryTriple df t = some pat) :
    pat.leftShoulder = t.1 ∧ pat.head = t.2.1 ∧ pat.rightShoulder = t.2.2 ∧
    df.high pat.head > df.high pat.leftShoulder ∧
    df.high pat.head > df.high pat.rightShoulder ∧
    qdiv (qabs (qsub (df.high pat.leftShoulder) (df.high pat.rightShoulder)))
      (df.high pat.leftShoulder) < mkRat 1 10 ∧
    pat.necklineLeft = df.low (idxminOver df.low pat.leftShoulder pat.head) ∧
    pat.necklineRight = df.low (idxminOver df.low pat.head pat.rightShoulder) ∧
    (tailRange pat.rightShoulder df.len).find?
      (fun idx =>
        decide (idxminOver df.low pat.head pat.rightShoulder ≠
          idxminOver df.low pat.leftShoulder pat.head) &&
        decide (df.low idx < hsNecklineAt df (idxminOver df.low pat.leftShoulder pat.head)
          (idxminOver df.low pat.head pat.rightShoulder) idx)) = some pat.breakdown := by
  simp only [hsTryTriple] at h
  split_ifs at h with hcond
  cases hf : (tailRange t.2.2 df.len).find?
      (fun idx =>
        decide (idxminOver df.low t.2.1 t.2.2 ≠ idxminOver df.low t.1 t.2.1) &&
        decide (df.low idx < hsNecklineAt df (idxminOver df.low t.1 t.2.1)
          (idxminOver df.low t.2.1 t.2.2) idx)) with
  | some bd =>
    rw [hf] at h
    cases h
    exact ⟨rfl, rfl, rfl, hcond.1, hcond.2.1, hcond.2.2, rfl, rfl, hf⟩
  | none =>
    rw [hf] at h
    cases h

/-- Claim C4, amended: head-and-shoulders detection accepts three peaks only
when the middle one is strictly higher than both outer ones with the outer two
within 10% of each other, anchors the neckline at the first `Low`-minima of
the slices flanking the head, and reports as breakdown the first bar from the
right shoulder onward whose **Low** (not close) falls below the neckline value
linearly interpolated between the two anchor troughs at that bar's position. -/
theorem claim_C4_amended (df : DataFrame) (pat : HSPattern)
    (h : detect_head_and_shoulders df = some pat) :
    df.high pat.head > df.high pat.leftShoulder ∧
    df.high pat.head > df.high pat.rightShoulder ∧
    |df.high pat.leftShoulder - df.high pat.rightShoulder| / df.high pat.leftShoulder < 1 / 10 ∧
    pat.necklineLeft = df.low (idxminOver df.low pat.leftShoulder pat.head) ∧
    pat.necklineRight = df.low (idxminOver df.low pat.head pat.rightShoulder) ∧
    pat.rightShoulder ≤ pat.breakdown ∧ pat.breakdown < df.len ∧
    df.low pat.breakdown < hsNecklineAt df (idxminOver df.low pat.leftShoulder pat.head)
      (idxminOver df.low pat.head pat.rightShoulder) pat.breakdown ∧
    ∀ m, pat.rightShoulder ≤ m → m < pat.breakdown →
      ¬ df.low m < hsNecklineAt df (idxminOver df.low pat.leftShoulder pat.head)
        (idxminOver df.low pat.head pat.rightShoulder) m := by
  rw [detect_head_and_shoulders] at h
  split_ifs at h with hcols hlen
  obtain ⟨t, ht, htry⟩ := firstSome?_eq_some h
  obtain ⟨h1, h2, h3, h4, h5, h6, h7, h8, hfind⟩ := hsTryTriple_eq_some htry
  obtain ⟨hbd, hb1, hb2, hmin⟩ := find?_range'_eq_some hfind
  rw [Bool.and_eq_true, decide_eq_true_eq, decide_eq_true_eq] at hbd
  have hpct : |df.high pat.leftShoulder - df.high pat.rightShoulder| /
      df.high pat.leftShoulder < 1 / 10 := by
    rw [qdiv_eq, qabs_eq, qsub_eq, mkRat_as_div] at h6
    push_cast at h6
    exact h6
  have hlen' : pat.breakdown < df.len := by omega
  refine ⟨h4, h5, hpct, h7, h8, hb1, hlen', hbd.2, fun m hm1 hm2 => ?_⟩
  have hfm := hmin m hm1 hm2
  rw [Bool.and_eq_false_iff] at hfm
  rcases hfm with hfm | hfm
  · rw [decide_eq_false_iff_not] at hfm
    exact absurd hbd.1 hfm
  · intro hcon
    rw [decide_eq_false_iff_not] at hfm
    exact hfm hcon

/-- Claim C4, counterexample: on `hsDF` the detector reports the breakdown at
position 24, where the interpolated neckline is 92; the bar's close 95 is
**above** the neckline — only its low 91.5 is below — so "close falling below
the neckline" is not what the code checks. -/
theorem claim_C4_counterexample :
    detect_head_and_shoulders hsDF = some ⟨7, 14, 21, 90, 91, 24⟩ ∧
    hsNecklineAt hsDF 10 17 24 = 92 ∧
    ¬ hsDF.close 24 < hsNecklineAt hsDF 10 17 24 ∧
    hsDF.low 24 < hsNecklineAt hsDF 10 17 24 := by
  refine ⟨by decide, by decide, by decide, by decide⟩

/-- Claim C4, witness: the amended guarantees instantiated on `hsDF` and its
detected pattern. -/
theorem claim_C4_witness :
    hsDF.high 14 > hsDF.high 7 ∧ hsDF.high 14 > hsDF.high 21 ∧
    hsDF.low 24 < hsNecklineAt hsDF (idxminOver hsDF.low 7 14) (idxminOver hsDF.low 14 21) 24 :=
  let h := claim_C4_amended hsDF ⟨7, 14, 21, 90, 91, 24⟩ (by decide)
  ⟨h.1, h.2.1, h.2.2.2.2.2.2.2.1⟩

/-! ## Claim C9 — cup and handle -/

theorem chTryIdx_eq_some {df : DataFrame} {i : ℕ} {pat : CupPattern}
    (h : chTryIdx df i = some pat) :
    pat.right_rim_idx = i ∧
    pat.left_rim_price = df.high pat.left_rim_idx ∧
    pat.cup_bottom_price = df.low pat.cup_bottom_idx ∧
    pat.right_rim_price = df.high i ∧
    pat.handle_bottom_price = df.low pat.handle_bottom_idx ∧
    pat.cup_depth = qsub pat.left_rim_price pat.cup_bottom_price ∧
    pat.handle_depth = qsub pat.right_rim_price pat.handle_bottom_price ∧
    ¬ qdiv pat.cup_depth pat.left_rim_price < mkRat 15 100 ∧
    ¬ qdiv (qabs (qsub pat.right_rim_price pat.left_rim_price)) pat.left_rim_price > mkRat 5 100 ∧
    ¬ qdiv pat.handle_depth pat.right_rim_price < mkRat 3 100 ∧
    ¬ qdiv pat.handle_depth pat.cup_depth > mkRat 5 10 ∧
    pat.breakout_price = df.close pat.breakout_idx ∧
    df.close pat.breakout_idx > pat.right_rim_price := by
  simp only [chTryIdx] at h
  split_ifs at h with h1 h2 h3 h4 h5
  rw [not_or] at h4
  cases hf : (tailRange (idxminOver df.low i (i + min 15 (df.len - i) - 1) + 1) df.len).find?
      (fun j => decide (df.close j >
        df.high i)) with
  | some bo =>
    rw [hf] at h
    cases h
    obtain ⟨hbo, -, -, -⟩ := find?_range'_eq_some hf
    exact ⟨rfl, rfl, rfl, rfl, rfl, rfl, rfl, h1, h2, h4.1, h4.2, rfl, of_decide_eq_true hbo⟩
  | none =>
    rw [hf] at h
    cases h

/-- Claim C9, amended: cup-and-handle detection accepts a candidate only when
the cup's depth is at least 15% of the left rim's price, the right rim is
within ±5% of the left rim's price, the handle's depth is at least 3% of the
**right rim's price** (not of the cup's depth) and at most 50% of the cup's
depth, and confirmation requires a close strictly above the right-rim price. -/
theorem claim_C9_amended (df : DataFrame) (pat : CupPattern)
    (h : detect_cup_and_handle df = some pat) :
    pat.cup_depth = pat.left_rim_price - pat.cup_bottom_price ∧
    15 / 100 ≤ pat.cup_depth / pat.left_rim_price ∧
    |pat.right_rim_price - pat.left_rim_price| / pat.left_rim_price ≤ 5 / 100 ∧
    pat.handle_depth = pat.right_rim_price - pat.handle_bottom_price ∧
    3 / 100 ≤ pat.handle_depth / pat.right_rim_price ∧
    pat.handle_depth / pat.cup_depth ≤ 5 / 10 ∧
    pat.breakout_price = df.close pat.breakout_idx ∧
    pat.breakout_price > pat.right_rim_price := by
  rw [detect_cup_and_handle] at h
  split_ifs at h with hlen
  obtain ⟨i, hi, htry⟩ := firstSome?_eq_some h
  obtain ⟨h1, h2, h3, h4, h5, h6, h7, h8, h9, h10, h11, h12, h13⟩ := chTryIdx_eq_some htry
  refine ⟨by rw [h6, qsub_eq], ?_, ?_, by rw [h7, qsub_eq], ?_, ?_, h12, by rw [h12]; exact h13⟩
  · rw [not_lt, qdiv_eq, mkRat_as_div] at h8
    push_cast at h8
    exact h8
  · rw [not_lt, qdiv_eq, qabs_eq, qsub_eq, mkRat_as_div] at h9
    push_cast at h9
    exact h9
  · rw [not_lt, qdiv_eq, mkRat_as_div] at h10
    push_cast at h10
    exact h10
  · rw [not_lt, qdiv_eq, mkRat_as_div] at h11
    push_cast at h11
    exact h11

/-- Claim C9, counterexample: `seriesCH` is accepted with a handle depth of
2.9 against a cup depth of 99 — the handle passes the code's 3%-of-rim-price
floor (2.9/96 ≈ 3.02%) while being **below** 3% of the cup's depth (2.97), so
the claimed "handle depth between 3% and 50% of the cup's depth" is not the
rule the code enforces. -/
theorem claim_C9_counterexample :
    detect_cup_and_handle seriesCH = some chPat ∧
    chPat.handle_depth = 29 / 10 ∧ chPat.cup_depth = 99 ∧
    chPat.handle_depth < (3 / 100) * chPat.cup_depth := by
  have h1 : chPat.handle_depth = 29 / 10 := by
    show (mkRat 29 10 : ℚ) = 29 / 10
    rw [mkRat_as_div]
    norm_num
  have h2 : chPat.cup_depth = 99 := by decide
  refine ⟨by decide, h1, h2, ?_⟩
  rw [h1, h2]
  norm_num

/-- Claim C9, witness: the amended guarantees instantiated on `seriesCH` and
its detected pattern. -/
theorem claim_C9_witness :
    3 / 100 ≤ chPat.handle_depth / chPat.right_rim_price ∧
    chPat.handle_depth / chPat.cup_depth ≤ 5 / 10 ∧
    chPat.breakout_price > chPat.right_rim_price :=
  let h := claim_C9_amended seriesCH chPat (by decide)
  ⟨h.2.2.2.2.1, h.2.2.2.2.2.1, h.2.2.2.2.2.2.2⟩
